import Mathlib

/-!
Shallow embedding of the token-authentication lifecycle of the
DreamsoftWebApp frontend:

* `src/data/remote/api/client.ts` — the axios response interceptor with
  the single-flight refresh coordinator (`isRefreshing`, `failedQueue`,
  `processQueue`) and the per-endpoint 401 branches;
* `src/features/auth/utils/tokenManager.ts` — the in-memory access-token
  cell;
* `src/features/auth/services/auth.service.ts` — `login`, `logout`,
  `refreshToken`;
* `src/features/auth/stores/auth.store.ts` — the zustand store actions
  `logout` and `initializeAuth`;
* `src/app/router/routes.constants.ts` — `isPublicRoute`.

Mutable module state (the token cell, the refresh flag, the waiter queue,
localStorage, `window.location.pathname`) is collected in one record
`ClientState` and every operation is written as an explicit state
transformer.  JavaScript is single threaded, so each synchronous segment
of an async handler is one atomic step: the 401 arrival (everything up to
the awaited refresh call) is `handleResponseError`, and the continuation
that runs when the refresh call settles (the try/catch/finally body after
the await) is `settleRefresh`.
-/

/-- The error envelope `ErrorResponseSchema` from client.ts: the
response interceptor rejects with a value of this shape. -/
structure ErrorResponse where
  StatusCode : Nat
  ErrorCode : String
  ErrorType : String
  ErrorMessage : String
deriving Repr, DecidableEq

/-- An axios request config, restricted to the fields the interceptor
reads: the url, the `_retry` mark (undefined is `false`) and the
Authorization header. -/
structure RequestConfig where
  url : String
  retryMark : Bool
  authHeader : Option String
deriving Repr, DecidableEq

/-- All mutable module-level state the auth subsystem touches:
`accessToken` is the cell in tokenManager.ts, `userCache` the
localStorage key "user", `savedCredentials` and `rememberFlag` the
localStorage keys "savedCredentials" and "rememberMe", `isRefreshing`
and `failedQueue` the coordinator state in client.ts (waiters are kept
as numeric ids), `pathname` is `window.location.pathname`. -/
structure ClientState where
  accessToken : Option String
  userCache : Option String
  savedCredentials : Option (String × String)
  rememberFlag : Bool
  isRefreshing : Bool
  failedQueue : List Nat
  pathname : String
deriving Repr, DecidableEq

/-- `pat.isPrefixOf` at every suffix: JavaScript `String.includes`. -/
def containsSub (pat : List Char) : List Char → Bool
  | [] => pat.isEmpty
  | c :: cs => pat.isPrefixOf (c :: cs) || containsSub pat cs

/-- `s.includes pat` of JavaScript strings. -/
def strIncludes (s pat : String) : Bool :=
  containsSub pat.data s.data

namespace tokenManager

/-- tokenManager.getAccessToken: read the in-memory cell. -/
def getAccessToken (cell : Option String) : Option String := cell

/-- tokenManager.setAccessToken: overwrite the cell. -/
def setAccessToken (_cell : Option String) (token : String) : Option String :=
  some token

/-- tokenManager.clearAccessToken: reset the cell to null. -/
def clearAccessToken (_cell : Option String) : Option String := none

/-- tokenManager.hasAccessToken: `accessToken !== null && accessToken !== ''`. -/
def hasAccessToken (cell : Option String) : Bool :=
  cell != none && cell != some ""

end tokenManager

/-- What the synchronous part of the 401 error handler does with one
failing request: reject to the caller (with a flag recording whether the
redirect to /login fired), push a waiter onto `failedQueue`, or mark the
request `_retry` and issue the single refresh call. -/
inductive ArrivalOutcome where
  | rejected (e : ErrorResponse) (redirected : Bool)
  | enqueued (wid : Nat)
  | refreshStarted (req : RequestConfig)
deriving Repr, DecidableEq

/-- The response-interceptor error handler of client.ts, from the top of
the 401 block to the point where control suspends (or rejects): the
RefreshToken-url branch, the Login-url branch, the `isRefreshing` queue
branch, the branch that marks `_retry` and starts the refresh call, and
the fall-through that rejects every other error.  `wid` names the waiter
this request would become if queued. -/
def handleResponseError (st : ClientState) (wid : Nat) (req : RequestConfig)
    (e : ErrorResponse) : ClientState × ArrivalOutcome :=
  if e.StatusCode == 401 && !req.retryMark then
    if strIncludes req.url "/RefreshToken" then
      let st1 := { st with accessToken := tokenManager.clearAccessToken st.accessToken,
                           userCache := none }
      if !strIncludes st1.pathname "/login" then
        ({ st1 with pathname := "/login" }, .rejected e true)
      else
        (st1, .rejected e false)
    else if strIncludes req.url "/Login/Login" then
      (st, .rejected e false)
    else if st.isRefreshing then
      ({ st with failedQueue := st.failedQueue ++ [wid] }, .enqueued wid)
    else
      ({ st with isRefreshing := true }, .refreshStarted { req with retryMark := true })
  else
    (st, .rejected e false)

/-- How the awaited refresh call settles. -/
inductive RefreshResult where
  | success (token : String)
  | failure (e : ErrorResponse)
deriving Repr, DecidableEq

/-- What the settle continuation delivers: on success, every queued
waiter resolved with the new token (each then retries carrying it) and
the initiating request retried with `originToken`; on failure, every
waiter rejected and the initiating caller rejected with the same error,
with a flag for the redirect. -/
inductive SettleOutcome where
  | resolvedAll (retries : List (Nat × String)) (originToken : String)
  | rejectedAll (rejections : List (Nat × ErrorResponse)) (err : ErrorResponse)
      (redirected : Bool)
deriving Repr, DecidableEq

/-- The continuation of the refresh branch in client.ts once the awaited
refresh call settles.  Success: store the token, update the original
request, `processQueue(null, token)` (resolve every waiter, empty the
queue), retry the original request; failure: `processQueue(error, null)`
(reject every waiter with that same error), clear the token, remove the
cached user, redirect unless already on /login, reject the caller with
the same error.  Both paths end in the finally that resets
`isRefreshing`. -/
def settleRefresh (st : ClientState) (res : RefreshResult) :
    ClientState × SettleOutcome :=
  match res with
  | .success t =>
      let st1 := { st with accessToken := tokenManager.setAccessToken st.accessToken t }
      let retries := st1.failedQueue.map (fun w => (w, t))
      ({ st1 with failedQueue := [], isRefreshing := false }, .resolvedAll retries t)
  | .failure e =>
      let rejections := st.failedQueue.map (fun w => (w, e))
      let st1 := { st with failedQueue := [],
                           accessToken := tokenManager.clearAccessToken st.accessToken,
                           userCache := none }
      if !strIncludes st1.pathname "/login" then
        ({ st1 with pathname := "/login", isRefreshing := false },
         .rejectedAll rejections e true)
      else
        ({ st1 with isRefreshing := false }, .rejectedAll rejections e false)

/-- One failing request reaching the error handler: its waiter id, its
config and the error it failed with. -/
structure Incoming where
  wid : Nat
  req : RequestConfig
  err : ErrorResponse
deriving Repr, DecidableEq

/-- A burst of failing requests handled back to back on the event loop,
with no intervening settle: each runs the synchronous part of the error
handler in arrival order. -/
def runArrivals : ClientState → List Incoming → ClientState × List ArrivalOutcome
  | st, [] => (st, [])
  | st, a :: rest =>
      let p := handleResponseError st a.wid a.req a.err
      let q := runArrivals p.1 rest
      (q.1, p.2 :: q.2)

/-- A plain API request: 401-failing, not yet retried, and aimed at
neither the refresh endpoint nor the login endpoint. -/
def plain401 (x : Incoming) : Prop :=
  x.err.StatusCode = 401 ∧ x.req.retryMark = false ∧
    strIncludes x.req.url "/RefreshToken" = false ∧
    strIncludes x.req.url "/Login/Login" = false

/-- Recognizer for the outcome that issues a refresh-endpoint call. -/
def isRefreshStart : ArrivalOutcome → Bool
  | .refreshStarted _ => true
  | _ => false

/-- The body the login endpoint is called with (auth.service.ts
LoginRequest). -/
structure LoginRequest where
  email : String
  userName : String
  password : String
  rememberMe : Bool
deriving Repr, DecidableEq

/-- The login / refresh success payload (auth.types LoginResponse): the
access token string and the user object, kept abstract as its serialized
form; a missing user field is `none`. -/
structure LoginResponse where
  accessToken : String
  user : Option String
deriving Repr, DecidableEq

/-- The message authService.login throws when the rejected value parses
as an ErrorResponse envelope (it always does when the rejection comes
from the response interceptor). -/
def formatLoginError (e : ErrorResponse) : String :=
  "Error Type: " ++ e.ErrorType ++ " \n\n            Error Code: " ++
    e.ErrorCode ++ " \n\n            Message: " ++ e.ErrorMessage

/-- authService.login: on success, store the access token in memory when
it is truthy, cache the user in localStorage when present, then save or
clear the remembered credentials; on failure, wrap the envelope in a
formatted message and leave all state untouched. -/
def authLogin (st : ClientState) (creds : LoginRequest)
    (backend : Except ErrorResponse LoginResponse) :
    ClientState × Except String LoginResponse :=
  match backend with
  | .ok resp =>
      let st1 := if resp.accessToken != "" then
          { st with accessToken := tokenManager.setAccessToken st.accessToken resp.accessToken }
        else st
      let st2 := match resp.user with
        | some u => { st1 with userCache := some u }
        | none => st1
      let st3 := if creds.rememberMe then
          { st2 with savedCredentials := some (creds.email, creds.userName),
                     rememberFlag := true }
        else
          { st2 with savedCredentials := none, rememberFlag := false }
      (st3, .ok resp)
  | .error e => (st, .error (formatLoginError e))

/-- authService.logout: call the backend logout endpoint; whether it
succeeds or throws, clear the in-memory token and the cached user
(savedCredentials and rememberMe are deliberately kept), and never
propagate an error to the caller. -/
def authLogout (st : ClientState) (backend : Except ErrorResponse Unit) :
    ClientState × Except ErrorResponse Unit :=
  match backend with
  | .ok _ =>
      ({ st with accessToken := tokenManager.clearAccessToken st.accessToken,
                 userCache := none }, .ok ())
  | .error _ =>
      ({ st with accessToken := tokenManager.clearAccessToken st.accessToken,
                 userCache := none }, .ok ())

/-- authService.refreshToken: on a response with a truthy accessToken,
store it and return it; on a falsy token or a rejected call, fire
logout() (its own backend outcome is `logoutBackend`) and throw the
session-expired message. -/
def refreshTokenSvc (st : ClientState) (backend : Except ErrorResponse LoginResponse)
    (logoutBackend : Except ErrorResponse Unit) : ClientState × Except String String :=
  match backend with
  | .ok resp =>
      if resp.accessToken != "" then
        ({ st with accessToken := tokenManager.setAccessToken st.accessToken resp.accessToken },
         .ok resp.accessToken)
      else
        ((authLogout st logoutBackend).1, .error "Session expired. Please login again.")
  | .error _ =>
      ((authLogout st logoutBackend).1, .error "Session expired. Please login again.")

/-- The zustand auth store state (auth.store.ts). -/
structure StoreState where
  user : Option String
  isAuthenticated : Bool
  isLoading : Bool
  error : Option String
deriving Repr, DecidableEq

/-- routes.constants PUBLIC_ROUTES. -/
def PUBLIC_ROUTES : List String :=
  ["/register", "/forgot-password", "/reset-password"]

/-- JavaScript `path.startsWith(route)` on the underlying characters. -/
def strStartsWith (s pat : String) : Bool :=
  pat.data.isPrefixOf s.data

/-- routes.constants isPublicRoute: does some public route prefix the
path. -/
def isPublicRoute (path : String) : Bool :=
  PUBLIC_ROUTES.any (fun route => strStartsWith path route)

/-- useAuthStore.logout: fire authService.logout and set the store to
the anonymous state. -/
def storeLogout (cst : ClientState) (sst : StoreState)
    (backend : Except ErrorResponse Unit) : ClientState × StoreState :=
  ((authLogout cst backend).1,
   { sst with user := none, isAuthenticated := false, isLoading := false,
              error := none })

/-- useAuthStore.initializeAuth: on a public route, stay anonymous and
skip the refresh; otherwise await authService.refreshToken, read the
cached user, and become authenticated exactly when the refresh resolved
with a truthy token and a cached user exists; every failure path only
resets the store, never the token cell. -/
def initializeAuth (cst : ClientState) (sst : StoreState)
    (refreshBackend : Except ErrorResponse LoginResponse)
    (logoutBackend : Except ErrorResponse Unit) : ClientState × StoreState :=
  if isPublicRoute cst.pathname then
    (cst, { sst with user := none, isAuthenticated := false, isLoading := false })
  else
    match refreshTokenSvc cst refreshBackend logoutBackend with
    | (cst1, .ok tok) =>
        if tok != "" && cst1.userCache.isSome then
          (cst1, { sst with user := cst1.userCache, isAuthenticated := true,
                            isLoading := false })
        else
          (cst1, { sst with user := none, isAuthenticated := false,
                            isLoading := false })
    | (cst1, .error _) =>
        (cst1, { sst with user := none, isAuthenticated := false,
                          isLoading := false })

/-- The module state at app start: empty token cell, empty caches, no
refresh in flight, on a protected page. -/
def initialClientState : ClientState :=
  { accessToken := none, userCache := none, savedCredentials := none,
    rememberFlag := false, isRefreshing := false, failedQueue := [],
    pathname := "/dashboard" }

instance (x : Incoming) : Decidable (plain401 x) := by
  unfold plain401; exact inferInstance

/-! ## Helper lemmas about the interceptor step functions -/

theorem handleResponseError_queued (st : ClientState) (x : Incoming)
    (h : plain401 x) (hr : st.isRefreshing = true) :
    handleResponseError st x.wid x.req x.err =
      ({ st with failedQueue := st.failedQueue ++ [x.wid] },
       .enqueued x.wid) := by
  obtain ⟨h1, h2, h3, h4⟩ := h
  simp [handleResponseError, h1, h2, h3, h4, hr]

theorem handleResponseError_starts (st : ClientState) (x : Incoming)
    (h : plain401 x) (hr : st.isRefreshing = false) :
    handleResponseError st x.wid x.req x.err =
      ({ st with isRefreshing := true },
       .refreshStarted { x.req with retryMark := true }) := by
  obtain ⟨h1, h2, h3, h4⟩ := h
  simp [handleResponseError, h1, h2, h3, h4, hr]

theorem runArrivals_refreshing (incs : List Incoming) (st : ClientState)
    (hr : st.isRefreshing = true) (h : ∀ x ∈ incs, plain401 x) :
    runArrivals st incs =
      ({ st with failedQueue := st.failedQueue ++ incs.map Incoming.wid },
       incs.map fun x => ArrivalOutcome.enqueued x.wid) := by
  induction incs generalizing st with
  | nil => simp [runArrivals]
  | cons a rest ih =>
      have ha : plain401 a := h a (by simp)
      have hrest : ∀ x ∈ rest, plain401 x := fun x hx => h x (by simp [hx])
      simp only [runArrivals]
      rw [handleResponseError_queued st a ha hr]
      dsimp only
      rw [ih { st with failedQueue := st.failedQueue ++ [a.wid] } hr hrest]
      simp [List.append_assoc]

theorem countP_enqueued_eq_zero (l : List Incoming) :
    (l.map fun x => ArrivalOutcome.enqueued x.wid).countP isRefreshStart = 0 := by
  induction l with
  | nil => rfl
  | cons a rest ih => simp [List.countP_cons, isRefreshStart, ih]

/-! ## Claim theorems -/

/-- Claim C1: when N = 1 + rest.length ≥ 2 plain API requests fail with
401 back to back while no refresh is in flight, the first arrival is the
only one whose outcome issues a refresh-endpoint call (count 1), every
other arrival is enqueued on failedQueue, and when the single refresh
settles successfully with token t, processQueue fans the very same t out
to every waiter and the initiating request retries with t as well. -/
theorem C1_single_refresh_fanout (st0 : ClientState) (a : Incoming)
    (rest : List Incoming) (t : String)
    (h0 : st0.isRefreshing = false) (hq : st0.failedQueue = [])
    (hall : ∀ x ∈ a :: rest, plain401 x) :
    (runArrivals st0 (a :: rest)).2 =
        ArrivalOutcome.refreshStarted { a.req with retryMark := true } ::
          rest.map (fun x => ArrivalOutcome.enqueued x.wid) ∧
    (runArrivals st0 (a :: rest)).2.countP isRefreshStart = 1 ∧
    (settleRefresh (runArrivals st0 (a :: rest)).1 (.success t)).2 =
      .resolvedAll (rest.map fun x => (x.wid, t)) t := by
  have ha : plain401 a := hall a (by simp)
  have hrest : ∀ x ∈ rest, plain401 x := fun x hx => hall x (by simp [hx])
  have hrun : runArrivals st0 (a :: rest) =
      ({ st0 with isRefreshing := true, failedQueue := rest.map Incoming.wid },
       ArrivalOutcome.refreshStarted { a.req with retryMark := true } ::
         rest.map fun x => ArrivalOutcome.enqueued x.wid) := by
    simp only [runArrivals]
    rw [handleResponseError_starts st0 a ha h0]
    dsimp only
    rw [runArrivals_refreshing rest { st0 with isRefreshing := true } rfl hrest]
    simp [hq]
  refine ⟨by rw [hrun], ?_, ?_⟩
  · rw [hrun]
    simp [List.countP_cons, isRefreshStart, countP_enqueued_eq_zero]
  · rw [hrun]
    simp [settleRefresh, List.map_map, Function.comp]

/-- A 401 error envelope as the backend emits it for an expired access
token. -/
def err401 : ErrorResponse :=
  { StatusCode := 401, ErrorCode := "401", ErrorType := "UNAUTHORIZED",
    ErrorMessage := "Token expired" }

/-- A plain API request to a business endpoint. -/
def reqItems : RequestConfig :=
  { url := "/dreamsoftapi/Items", retryMark := false, authHeader := none }

/-- A second concurrent plain API request. -/
def reqCustomers : RequestConfig :=
  { url := "/dreamsoftapi/Customers", retryMark := false, authHeader := none }

/-- A third concurrent plain API request. -/
def reqReports : RequestConfig :=
  { url := "/dreamsoftapi/Reports", retryMark := false, authHeader := none }

/-- First failing arrival of the concurrent burst. -/
def inc1 : Incoming := { wid := 1, req := reqItems, err := err401 }

/-- Second failing arrival of the concurrent burst. -/
def inc2 : Incoming := { wid := 2, req := reqCustomers, err := err401 }

/-- Third failing arrival of the concurrent burst. -/
def inc3 : Incoming := { wid := 3, req := reqReports, err := err401 }

/-- Claim C1 witness: three concurrent 401s from a fresh state, refresh
settles with "newtok". -/
theorem C1_single_refresh_fanout_witness :
    initialClientState.isRefreshing = false ∧
    initialClientState.failedQueue = [] ∧
    (∀ x ∈ [inc1, inc2, inc3], plain401 x) ∧
    ((runArrivals initialClientState [inc1, inc2, inc3]).2 =
        ArrivalOutcome.refreshStarted { inc1.req with retryMark := true } ::
          [inc2, inc3].map (fun x => ArrivalOutcome.enqueued x.wid) ∧
     (runArrivals initialClientState [inc1, inc2, inc3]).2.countP isRefreshStart = 1 ∧
     (settleRefresh (runArrivals initialClientState [inc1, inc2, inc3]).1
        (.success "newtok")).2 =
       .resolvedAll ([inc2, inc3].map fun x => (x.wid, "newtok")) "newtok") :=
  ⟨rfl, rfl, by decide,
   C1_single_refresh_fanout initialClientState inc1 [inc2, inc3] "newtok"
     rfl rfl (by decide)⟩

/-- The module state after a full refresh cycle: inc1 started the
refresh, inc2 was enqueued, the refresh settled successfully with
"tok2". -/
def afterCycleState : ClientState :=
  (settleRefresh (runArrivals initialClientState [inc1, inc2]).1
    (.success "tok2")).1

/-- The request released from the waiter queue: the queue continuation
only rewrites its Authorization header; it never sets the request's
`_retry` mark. -/
def releasedReq : RequestConfig :=
  { reqCustomers with authHeader := some "Bearer tok2" }

/-- Claim C2 counterexample: the request released from the waiter queue
is NOT marked (`_retry` is still false), and when its retry fails with
401 after the cycle has settled (isRefreshing is false again), the
handler starts a SECOND refresh instead of surfacing the failure — the
claim that every released request is marked against a further refresh is
false on this execution. -/
theorem C2_released_request_unmarked_counterexample :
    releasedReq.retryMark = false ∧
    afterCycleState.isRefreshing = false ∧
    (handleResponseError afterCycleState 2 releasedReq err401).2 =
      .refreshStarted { releasedReq with retryMark := true } := by
  refine ⟨rfl, by decide, by decide⟩

/-- Claim C2 amended: only the request that initiated the refresh is
marked `_retry`; a marked request that fails again with 401 is rejected
to its caller (with the error envelope, no session-expired wrapper)
without starting a refresh and without being enqueued; requests released
from the waiter queue keep `_retry` false, so a 401 on their retry can
start a second refresh (as the counterexample shows). -/
theorem C2_retry_mark_amended (st st2 : ClientState) (x : Incoming)
    (wid2 : Nat) (req2 : RequestConfig) (e2 : ErrorResponse)
    (h : plain401 x) (hr : st.isRefreshing = false)
    (hmark2 : req2.retryMark = true) :
    (handleResponseError st x.wid x.req x.err).2 =
      .refreshStarted { x.req with retryMark := true } ∧
    handleResponseError st2 wid2 req2 e2 = (st2, .rejected e2 false) := by
  constructor
  · rw [handleResponseError_starts st x h hr]
  · simp [handleResponseError, hmark2]

/-- Claim C2 amended witness: inc1 initiates from a fresh state; the
marked retry of reqItems fails again with 401 and is only rejected. -/
theorem C2_retry_mark_amended_witness :
    plain401 inc1 ∧
    initialClientState.isRefreshing = false ∧
    ({ reqItems with retryMark := true } : RequestConfig).retryMark = true ∧
    ((handleResponseError initialClientState inc1.wid inc1.req inc1.err).2 =
        .refreshStarted { inc1.req with retryMark := true } ∧
     handleResponseError afterCycleState 1 { reqItems with retryMark := true }
        err401 = (afterCycleState, .rejected err401 false)) :=
  ⟨by decide, rfl, rfl,
   C2_retry_mark_amended initialClientState afterCycleState inc1 1
     { reqItems with retryMark := true } err401 (by decide) rfl rfl⟩

/-- Claim C3: when the in-flight refresh call fails, the settle
continuation rejects every waiter on failedQueue with the same error
object that the initiating caller is rejected with, and the token cell
is cleared. -/
theorem C3_refresh_failure_fanout (st : ClientState) (e : ErrorResponse) :
    (settleRefresh st (.failure e)).2 =
        .rejectedAll (st.failedQueue.map fun w => (w, e)) e
          (!strIncludes st.pathname "/login") ∧
    (settleRefresh st (.failure e)).1.accessToken = none := by
  cases h : strIncludes st.pathname "/login" <;>
    simp [settleRefresh, tokenManager.clearAccessToken, h]

/-- Claim C4: every settle of a refresh cycle, successful or failed,
ends with isRefreshing reset to false (the finally block), so a later
401 can start a new cycle. -/
theorem C4_isRefreshing_always_reset (st : ClientState) (res : RefreshResult) :
    (settleRefresh st res).1.isRefreshing = false := by
  cases res with
  | success t => rfl
  | failure e =>
      cases h : strIncludes st.pathname "/login" <;> simp [settleRefresh, h]

/-- Claim C5: a 401 from the refresh endpoint itself never starts
another refresh: the handler clears the token cell and the cached user,
redirects to /login exactly when not already there, leaves isRefreshing
untouched, and rejects the caller with the error. -/
theorem C5_refresh_endpoint_401 (st : ClientState) (wid : Nat)
    (req : RequestConfig) (e : ErrorResponse)
    (h401 : e.StatusCode = 401) (hmark : req.retryMark = false)
    (hurl : strIncludes req.url "/RefreshToken" = true) :
    (handleResponseError st wid req e).1.accessToken = none ∧
    (handleResponseError st wid req e).1.userCache = none ∧
    (handleResponseError st wid req e).1.isRefreshing = st.isRefreshing ∧
    (handleResponseError st wid req e).2 =
      .rejected e (!strIncludes st.pathname "/login") := by
  cases h : strIncludes st.pathname "/login" <;>
    simp [handleResponseError, tokenManager.clearAccessToken, h401, hmark, hurl, h]

/-- Claim C5 witness: the real refresh endpoint url, 401 envelope, away
from the login view. -/
theorem C5_refresh_endpoint_401_witness :
    (401 : Nat) = 401 ∧
    ({ url := "/dreamsoftapi/Login/RefreshToken", retryMark := false,
       authHeader := none } : RequestConfig).retryMark = false ∧
    strIncludes "/dreamsoftapi/Login/RefreshToken" "/RefreshToken" = true ∧
    ((handleResponseError initialClientState 5
        { url := "/dreamsoftapi/Login/RefreshToken", retryMark := false,
          authHeader := none }
        { StatusCode := 401, ErrorCode := "401", ErrorType := "UNAUTHORIZED",
          ErrorMessage := "refresh expired" }).1.accessToken = none ∧
     (handleResponseError initialClientState 5
        { url := "/dreamsoftapi/Login/RefreshToken", retryMark := false,
          authHeader := none }
        { StatusCode := 401, ErrorCode := "401", ErrorType := "UNAUTHORIZED",
          ErrorMessage := "refresh expired" }).1.userCache = none ∧
     (handleResponseError initialClientState 5
        { url := "/dreamsoftapi/Login/RefreshToken", retryMark := false,
          authHeader := none }
        { StatusCode := 401, ErrorCode := "401", ErrorType := "UNAUTHORIZED",
          ErrorMessage := "refresh expired" }).1.isRefreshing =
        initialClientState.isRefreshing ∧
     (handleResponseError initialClientState 5
        { url := "/dreamsoftapi/Login/RefreshToken", retryMark := false,
          authHeader := none }
        { StatusCode := 401, ErrorCode := "401", ErrorType := "UNAUTHORIZED",
          ErrorMessage := "refresh expired" }).2 =
        .rejected
          { StatusCode := 401, ErrorCode := "401", ErrorType := "UNAUTHORIZED",
            ErrorMessage := "refresh expired" }
          (!strIncludes initialClientState.pathname "/login")) :=
  ⟨rfl, rfl, by decide,
   C5_refresh_endpoint_401 initialClientState 5 _ _ rfl rfl (by decide)⟩

/-- Claim C6: a 401 from the login endpoint is rejected verbatim by the
interceptor: no refresh is started, nothing is enqueued, and the module
state (token cell, user cache, refresh flag, queue) is left completely
unchanged. -/
theorem C6_login_401_isolated (st : ClientState) (wid : Nat)
    (req : RequestConfig) (e : ErrorResponse)
    (h401 : e.StatusCode = 401) (hmark : req.retryMark = false)
    (hnr : strIncludes req.url "/RefreshToken" = false)
    (hl : strIncludes req.url "/Login/Login" = true) :
    handleResponseError st wid req e = (st, .rejected e false) := by
  simp [handleResponseError, h401, hmark, hnr, hl]

/-- Claim C6 witness: the real login endpoint url with a credentials
401. -/
theorem C6_login_401_isolated_witness :
    (401 : Nat) = 401 ∧
    ({ url := "/dreamsoftapi/Login/Login", retryMark := false,
       authHeader := none } : RequestConfig).retryMark = false ∧
    strIncludes "/dreamsoftapi/Login/Login" "/RefreshToken" = false ∧
    strIncludes "/dreamsoftapi/Login/Login" "/Login/Login" = true ∧
    handleResponseError initialClientState 9
        { url := "/dreamsoftapi/Login/Login", retryMark := false,
          authHeader := none } err401 =
      (initialClientState, .rejected err401 false) :=
  ⟨rfl, rfl, by decide, by decide,
   C6_login_401_isolated initialClientState 9 _ err401 rfl rfl
     (by decide) (by decide)⟩

/-- A successful login payload whose accessToken is the empty string:
the response is a well-typed LoginResponse and authService.login
resolves with it, but the `if (response.data.accessToken)` guard skips
the token store. -/
def emptyTokenResp : LoginResponse := { accessToken := "", user := some "alice" }

/-- The credentials used in the login scenarios. -/
def someCreds : LoginRequest :=
  { email := "a@b.c", userName := "alice", password := "pw", rememberMe := false }

/-- Claim C7 counterexample: login() resolves successfully on a response
whose accessToken is the empty string, yet hasAccessToken() is false
afterwards — "after login() resolves successfully, TokenStore.has() is
true" fails on this execution. -/
theorem C7_empty_token_login_counterexample :
    (authLogin initialClientState someCreds (.ok emptyTokenResp)).2 =
      .ok emptyTokenResp ∧
    tokenManager.hasAccessToken
      (authLogin initialClientState someCreds (.ok emptyTokenResp)).1.accessToken
      = false := ⟨rfl, rfl⟩

/-- Claim C7 amended: after login() resolves successfully on a response
whose accessToken is nonempty, hasAccessToken() is true; after logout()
resolves — whatever the backend logout call did — hasAccessToken() is
false. -/
theorem C7_token_lifecycle_amended (st st2 : ClientState)
    (creds : LoginRequest) (resp : LoginResponse)
    (b : Except ErrorResponse Unit) (hne : resp.accessToken ≠ "") :
    tokenManager.hasAccessToken
        (authLogin st creds (.ok resp)).1.accessToken = true ∧
    tokenManager.hasAccessToken
        (authLogout st2 b).1.accessToken = false := by
  constructor
  · have hbne : (resp.accessToken != "") = true := by
      simp [bne_iff_ne, hne]
    cases hu : resp.user <;> cases hrm : creds.rememberMe <;>
      simp [authLogin, hbne, hu, hrm, tokenManager.setAccessToken,
        tokenManager.hasAccessToken, hne]
  · cases b <;>
      simp [authLogout, tokenManager.clearAccessToken, tokenManager.hasAccessToken]

/-- Claim C7 amended witness: a login response carrying "tok-1", then a
logout whose backend call succeeds. -/
theorem C7_token_lifecycle_amended_witness :
    ({ accessToken := "tok-1", user := some "alice" } : LoginResponse).accessToken
      ≠ "" ∧
    (tokenManager.hasAccessToken
        (authLogin initialClientState someCreds
          (.ok { accessToken := "tok-1", user := some "alice" })).1.accessToken
        = true ∧
     tokenManager.hasAccessToken
        (authLogout initialClientState (.ok ())).1.accessToken = false) :=
  ⟨by decide,
   C7_token_lifecycle_amended initialClientState initialClientState someCreds
     { accessToken := "tok-1", user := some "alice" } (.ok ()) (by decide)⟩

/-- Claim C8: logout() never surfaces an error to its caller and always
ends with the token cell cleared and the cached user removed, whatever
state it starts from (the already-anonymous state included) and whether
the backend logout call succeeded or failed; the store logout ends in
the anonymous store state. -/
theorem C8_logout_total_teardown (cst : ClientState) (sst : StoreState)
    (b : Except ErrorResponse Unit) :
    (authLogout cst b).2 = .ok () ∧
    (authLogout cst b).1.accessToken = none ∧
    (authLogout cst b).1.userCache = none ∧
    (storeLogout cst sst b).2.isAuthenticated = false ∧
    (storeLogout cst sst b).2.user = none := by
  cases b <;>
    simp [authLogout, storeLogout, tokenManager.clearAccessToken]

/-- Claim C9: hasAccessToken is true exactly when the cell is neither
null nor the empty string; after setAccessToken "" the cell reads back
as some "" while hasAccessToken reports false. -/
theorem C9_hasAccessToken_semantics (cell : Option String) :
    (tokenManager.hasAccessToken cell = true ↔ cell ≠ none ∧ cell ≠ some "") ∧
    tokenManager.hasAccessToken (tokenManager.setAccessToken cell "") = false ∧
    tokenManager.getAccessToken (tokenManager.setAccessToken cell "") = some "" := by
  refine ⟨?_, rfl, rfl⟩
  cases cell <;> simp [tokenManager.hasAccessToken]

/-- Claim C10: initializeAuth resolves authenticated exactly when the
route is not public, the refresh call resolved with a truthy token and a
cached user exists; when the refresh succeeds but no cached user exists,
the store stays anonymous while the freshly minted access token is left
in the token cell — the failure path of initializeAuth never clears the
token store. -/
theorem C10_initializeAuth_token_retained (cst : ClientState) (sst : StoreState)
    (resp : LoginResponse) (lb : Except ErrorResponse Unit)
    (hpub : isPublicRoute cst.pathname = false)
    (hne : resp.accessToken ≠ "") (hnouser : cst.userCache = none) :
    (initializeAuth cst sst (.ok resp) lb).2.isAuthenticated = false ∧
    (initializeAuth cst sst (.ok resp) lb).1.accessToken = some resp.accessToken ∧
    (∀ (cst2 : ClientState) (sst2 : StoreState)
       (rb : Except ErrorResponse LoginResponse) (lb2 : Except ErrorResponse Unit),
       (initializeAuth cst2 sst2 rb lb2).2.isAuthenticated = true →
         isPublicRoute cst2.pathname = false ∧
         (∃ r, rb = .ok r ∧ r.accessToken ≠ "") ∧ cst2.userCache ≠ none) := by
  have hbne : (resp.accessToken != "") = true := by simp [bne_iff_ne, hne]
  refine ⟨?_, ?_, ?_⟩
  · simp [initializeAuth, refreshTokenSvc, hpub, hbne,
      tokenManager.setAccessToken, hnouser]
  · simp [initializeAuth, refreshTokenSvc, hpub, hbne,
      tokenManager.setAccessToken, hnouser]
  · intro cst2 sst2 rb lb2 hauth
    by_cases hp : isPublicRoute cst2.pathname
    · simp [initializeAuth, hp] at hauth
    · refine ⟨by simpa using hp, ?_⟩
      cases rb with
      | error e => simp [initializeAuth, hp, refreshTokenSvc] at hauth
      | ok r =>
          by_cases hr : r.accessToken = ""
          · simp [initializeAuth, hp, refreshTokenSvc, hr] at hauth
          · by_cases hu : cst2.userCache.isSome
            · refine ⟨⟨r, rfl, hr⟩, ?_⟩
              cases hc : cst2.userCache with
              | none => rw [hc] at hu; simp at hu
              | some u => simp [hc]
            · have hbr : (r.accessToken != "") = true := by simp [bne_iff_ne, hr]
              simp [initializeAuth, hp, refreshTokenSvc, hbr,
                tokenManager.setAccessToken, hu] at hauth

/-- Claim C10 witness: a protected route, a refresh that mints "minted",
and an empty user cache. -/
theorem C10_initializeAuth_token_retained_witness :
    isPublicRoute initialClientState.pathname = false ∧
    ({ accessToken := "minted", user := none } : LoginResponse).accessToken ≠ "" ∧
    initialClientState.userCache = none ∧
    ((initializeAuth initialClientState
        { user := none, isAuthenticated := false, isLoading := true, error := none }
        (.ok { accessToken := "minted", user := none }) (.ok ())).2.isAuthenticated
        = false ∧
     (initializeAuth initialClientState
        { user := none, isAuthenticated := false, isLoading := true, error := none }
        (.ok { accessToken := "minted", user := none }) (.ok ())).1.accessToken
        = some ({ accessToken := "minted", user := none } : LoginResponse).accessToken ∧
     (∀ (cst2 : ClientState) (sst2 : StoreState)
        (rb : Except ErrorResponse LoginResponse) (lb2 : Except ErrorResponse Unit),
        (initializeAuth cst2 sst2 rb lb2).2.isAuthenticated = true →
          isPublicRoute cst2.pathname = false ∧
          (∃ r, rb = .ok r ∧ r.accessToken ≠ "") ∧ cst2.userCache ≠ none)) :=
  ⟨by decide, by decide, rfl,
   C10_initializeAuth_token_retained initialClientState
     { user := none, isAuthenticated := false, isLoading := true, error := none }
     { accessToken := "minted", user := none } (.ok ())
     (by decide) (by decide) rfl⟩
